import Mathlib

/-!
Verification of the FlightController ground-station core against its
specification.  The Python sources are shallowly embedded: dictionaries of
optional JSON keys become structures of `Option` fields, file writes become
explicit event lists carried in the state, and every stateful method becomes a
pure state-transformer.  Numeric values are modelled as rationals.
-/

set_option maxHeartbeats 1000000

namespace FlightController

/-- A parsed wire record (a JSON object).  Each field is `some v` exactly when
the corresponding key is present in the dictionary.  Numeric values are
rationals, status/error/timestamp values are strings. -/
structure Record where
  roll : Option ℚ := none
  pitch : Option ℚ := none
  yaw : Option ℚ := none
  altitude : Option ℚ := none
  velocity : Option ℚ := none
  time : Option ℚ := none
  bno_ax : Option ℚ := none
  bno_ay : Option ℚ := none
  bno_az : Option ℚ := none
  status : Option String := none
  error : Option String := none
  timestamp : Option String := none
  bno_status : Option String := none
  adxl1_status : Option String := none
  adxl2_status : Option String := none
  bmp_status : Option String := none
deriving DecidableEq, Repr

/-- One CSV cell: the row sink mixes strings and numbers. -/
inductive Cell where
  | str (s : String)
  | num (q : ℚ)
deriving DecidableEq, Repr

/-- The fixed 14-column header written by `DataLogger.start_logging`. -/
def csvHeader : List Cell :=
  [.str "timestamp", .str "time_seconds", .str "roll", .str "pitch",
   .str "yaw", .str "altitude", .str "velocity", .str "bno_status",
   .str "adxl1_status", .str "adxl2_status", .str "bmp_status",
   .str "bno_ax", .str "bno_ay", .str "bno_az"]

/-- The CSV row written for one logged record by `DataLogger.log_data`
(`data.get(key, default)` for each of the 14 columns). -/
def rowOf (d : Record) : List Cell :=
  [.str (d.timestamp.getD ""), .num (d.time.getD 0), .num (d.roll.getD 0),
   .num (d.pitch.getD 0), .num (d.yaw.getD 0), .num (d.altitude.getD 0),
   .num (d.velocity.getD 0), .str (d.bno_status.getD "UNKNOWN"),
   .str (d.adxl1_status.getD "UNKNOWN"), .str (d.adxl2_status.getD "UNKNOWN"),
   .str (d.bmp_status.getD "UNKNOWN"), .num (d.bno_ax.getD 0),
   .num (d.bno_ay.getD 0), .num (d.bno_az.getD 0)]

/-- The JSON document serialized by `DataLogger.stop_logging`. -/
structure JsonDoc where
  start_time : Option String
  end_time : Option String
  total_samples : ℕ
  data : List Record
deriving DecidableEq, Repr

/-- State of `DataLogger` (data_logger.py).  File-system effects are carried
as explicit event lists: `csv_open_events` records each filename opened for
(truncating) writing, `json_docs` records each (filename, document) pair
written at stop, and `flush_count` counts the periodic `csv_file.flush()`
calls issued by `log_data`. -/
structure DataLogger where
  csv_filename : String
  json_filename : String
  csv_rows : List (List Cell)
  json_data : List Record
  is_logging : Bool
  flush_count : ℕ
  csv_open_events : List String
  json_docs : List (String × JsonDoc)
deriving DecidableEq, Repr

/-- `DataLogger.__init__`: both sink filenames are derived once from the
construction-time timestamp; the buffer starts empty and logging inactive. -/
def init_logger (stamp : String) : DataLogger :=
  { csv_filename := "logs/telemetry_" ++ stamp ++ ".csv"
    json_filename := "logs/telemetry_" ++ stamp ++ ".json"
    csv_rows := []
    json_data := []
    is_logging := false
    flush_count := 0
    csv_open_events := []
    json_docs := [] }

/-- `DataLogger.start_logging`: if already logging it returns at once (no
exception is raised); otherwise it opens the CSV file with mode `w`
(truncating it), writes the header row, and sets the active flag. -/
def start_logging (l : DataLogger) : DataLogger :=
  if l.is_logging then l
  else
    { l with
      csv_open_events := l.csv_open_events ++ [l.csv_filename]
      csv_rows := [csvHeader]
      is_logging := true }

/-- `DataLogger.log_data` with the wall-clock timestamp `ts` that
`datetime.now().isoformat()` returns on this call: a no-op when inactive;
otherwise it stamps the record, appends a CSV row, appends the stamped record
to the in-memory JSON buffer, and flushes the CSV file when the buffer length
is a multiple of 100. -/
def log_data (ts : String) (l : DataLogger) (d : Record) : DataLogger :=
  if l.is_logging then
    let d2 := { d with timestamp := some ts }
    let jd := l.json_data ++ [d2]
    { l with
      csv_rows := l.csv_rows ++ [rowOf d2]
      json_data := jd
      flush_count :=
        if jd.length % 100 = 0 then l.flush_count + 1 else l.flush_count }
  else l

/-- The JSON document `stop_logging` serializes from a buffer:
`metadata.start_time`/`end_time` are the first/last entry's timestamp (or
null on an empty buffer), `total_samples` the length, `data` the buffer. -/
def mkDoc (jd : List Record) : JsonDoc :=
  { start_time := jd.head?.bind (·.timestamp)
    end_time := jd.getLast?.bind (·.timestamp)
    total_samples := jd.length
    data := jd }

/-- `DataLogger.stop_logging`: a no-op when inactive; otherwise it closes the
CSV file, writes the JSON document to the JSON filename, and clears the
active flag.  The in-memory buffer `json_data` is not touched. -/
def stop_logging (l : DataLogger) : DataLogger :=
  if l.is_logging then
    { l with
      json_docs := l.json_docs ++ [(l.json_filename, mkDoc l.json_data)]
      is_logging := false }
  else l

/-- Maximum of a Python list via `max(xs) if xs else 0`. -/
def listMax : List ℚ → ℚ
  | [] => 0
  | x :: xs => xs.foldl max x

/-- Result record of `DataLogger.get_stats`. -/
structure Stats where
  samples : ℕ
  duration : ℚ
  max_altitude : ℚ
  max_roll : ℚ
  max_pitch : ℚ
deriving DecidableEq, Repr

/-- `DataLogger.get_stats`: `None` on an empty buffer, otherwise the count,
the elapsed-time span (0 with fewer than two samples), and the field maxima.
Entries reaching the buffer always carry a `time` key (the decoder injects
it), so `d['time']` is modelled as `getD 0`. -/
def get_stats (l : DataLogger) : Option Stats :=
  if l.json_data.isEmpty then none
  else
    some
      { samples := l.json_data.length
        duration :=
          if 1 < l.json_data.length then
            ((l.json_data.getLastD {}).time.getD 0)
              - ((l.json_data.headD {}).time.getD 0)
          else 0
        max_altitude := listMax (l.json_data.map (fun d => d.altitude.getD 0))
        max_roll := listMax (l.json_data.map (fun d => d.roll.getD 0))
        max_pitch := listMax (l.json_data.map (fun d => d.pitch.getD 0)) }

/-- Error vocabulary of the specification for `start()`. -/
inductive StartError where
  | alreadyActive
deriving DecidableEq, Repr

/-- Modelled from the spec (refinement target, not from the source):
"`start()` fails with AlreadyActive if a session is already open; otherwise
opens the sinks, writes the header and marks the session active". -/
def start_logging_spec (l : DataLogger) : Except StartError DataLogger :=
  if l.is_logging then .error .alreadyActive
  else .ok (start_logging l)

/-- A concrete logger fresh from construction. -/
def demoLogger : DataLogger := init_logger "20250101_000000"

/-- A concrete logger with an active, empty session. -/
def demoActive : DataLogger := start_logging demoLogger

/-- Python's `str.strip()`: whitespace removed from both ends.  Lines are
modelled as character lists so the embedding evaluates on concrete inputs. -/
def pyStrip (s : List Char) : List Char :=
  ((s.dropWhile Char.isWhitespace).reverse.dropWhile Char.isWhitespace).reverse

/-- `line.startswith('\x7b') and line.endswith('\x7d')`: the recognition rule
for a structured record. -/
def bracedLine (line : List Char) : Bool :=
  (line.head? == some '\x7b') && (line.getLast? == some '\x7d')

/-- `SerialHandler.read_data` (serial_handler.py).  `parse` abstracts
`json.loads` (`none` = the call raised, which the handler catches and turns
into `None`); `is_connected` covers the `is_connected`/`serial_port` guard;
`raw` is the decoded line read this tick (`none` = no bytes waiting);
`elapsed` is `time.time() - start_time`.  Every exception inside the body is
caught and converted to `None`, which is why the embedding is a total
`Option`-valued function. -/
def read_data (parse : List Char → Option Record) (is_connected : Bool)
    (raw : Option (List Char)) (elapsed : ℚ) : Option Record :=
  if is_connected then
    match raw with
    | none => none
    | some line0 =>
      let line := pyStrip line0
      if bracedLine line then
        match parse line with
        | some d => some { d with time := some elapsed }
        | none => none
      else none
  else none

/-- The telemetry guard of both `MainWindow.update_data` methods:
`all(key in data for key in ['roll', 'pitch', 'yaw', 'altitude'])`. -/
def hasAllFour (d : Record) : Bool :=
  d.roll.isSome && d.pitch.isSome && d.yaw.isSome && d.altitude.isSome

/-- Modelled from the spec (refinement target, not from the source): the wire
record shape calls a structured record telemetry when it has "at least one of
roll, pitch, yaw, altitude". -/
def wire_is_telemetry (d : Record) : Bool :=
  d.roll.isSome || d.pitch.isSome || d.yaw.isSome || d.altitude.isSome

/-- How `update_data` disposes of a parsed record. -/
inductive Handling where
  | telemetry
  | statusMsg
  | errorMsg
  | dropped
deriving DecidableEq, Repr

/-- The branch structure of `MainWindow.update_data` in main_window.py:
telemetry when all four keys are present, else the `status` branch, else the
`error` branch, else nothing. -/
def update_data_branch (d : Record) : Handling :=
  if hasAllFour d then .telemetry
  else if d.status.isSome then .statusMsg
  else if d.error.isSome then .errorMsg
  else .dropped

/-- The branch structure of `MainWindow.update_data` in
main_window_spacex.py: telemetry when all four keys are present, else the
record is ignored (this window has no status/error branches). -/
def spacex_branch (d : Record) : Handling :=
  if hasAllFour d then .telemetry else .dropped

/-- The six parallel per-field lists kept by the SpaceX window
(`time_data` … `velocity_data`). -/
structure PlotBuffers where
  time_data : List ℚ
  roll_data : List ℚ
  pitch_data : List ℚ
  yaw_data : List ℚ
  altitude_data : List ℚ
  velocity_data : List ℚ
deriving DecidableEq, Repr

/-- The empty buffer state set up in `MainWindow.__init__`. -/
def emptyBuffers : PlotBuffers :=
  { time_data := [], roll_data := [], pitch_data := [], yaw_data := []
    altitude_data := [], velocity_data := [] }

/-- Python's `l[-n:]`: the last `n` elements (the whole list when it is
shorter). -/
def keepLast (n : ℕ) (l : List ℚ) : List ℚ := l.drop (l.length - n)

/-- The buffer update inside `MainWindow.update_data`
(main_window_spacex.py), with the capacity as a parameter: append the
sample's fields to every list (`velocity` defaulting to 0 when absent), then,
if `time_data` now exceeds the capacity, cut every list down to its last
`maxPoints` elements.  The guard `hasAllFour` of the caller ensures the four
keys are present; the decoder always injects `time`. -/
def push_buffersN (maxPoints : ℕ) (b : PlotBuffers) (d : Record) :
    PlotBuffers :=
  let b1 : PlotBuffers :=
    { time_data := b.time_data ++ [d.time.getD 0]
      roll_data := b.roll_data ++ [d.roll.getD 0]
      pitch_data := b.pitch_data ++ [d.pitch.getD 0]
      yaw_data := b.yaw_data ++ [d.yaw.getD 0]
      altitude_data := b.altitude_data ++ [d.altitude.getD 0]
      velocity_data := b.velocity_data ++ [d.velocity.getD 0] }
  if b1.time_data.length > maxPoints then
    { time_data := keepLast maxPoints b1.time_data
      roll_data := keepLast maxPoints b1.roll_data
      pitch_data := keepLast maxPoints b1.pitch_data
      yaw_data := keepLast maxPoints b1.yaw_data
      altitude_data := keepLast maxPoints b1.altitude_data
      velocity_data := keepLast maxPoints b1.velocity_data }
  else b1

/-- The buffer update with the source's fixed capacity `max_points = 500`. -/
def push_buffers : PlotBuffers → Record → PlotBuffers := push_buffersN 500

/-- Pushing a whole sequence of samples into an initially empty window. -/
def run_pushes (maxPoints : ℕ) (ds : List Record) : PlotBuffers :=
  ds.foldl (push_buffersN maxPoints) emptyBuffers

/-- The window-and-logger state mutated by the SpaceX `update_data`. -/
structure GuiState where
  buffers : PlotBuffers
  logger : DataLogger
deriving DecidableEq, Repr

/-- One tick of `MainWindow.update_data` (main_window_spacex.py) given the
record the serial handler returned (`none` when `read_data` produced
nothing) and the wall-clock timestamp `ts` the logger would stamp: telemetry
records are logged (if a session is active, on a copy so the caller's record
is not mutated) and appended to the window; all other records leave the
state untouched. -/
def spacex_update (ts : String) (s : GuiState) (rd : Option Record) :
    GuiState :=
  match rd with
  | none => s
  | some d =>
    if hasAllFour d then
      { logger :=
          if s.logger.is_logging then log_data ts s.logger d else s.logger
        buffers := push_buffers s.buffers d }
    else s

/-- A concrete GUI state: empty window, inactive fresh logger. -/
def demoGui : GuiState := { buffers := emptyBuffers, logger := demoLogger }

/-- Camera state of `Rocket3DWidget` (rocket_orientation_widget_3d.py):
orbit distance plus the two orbit angles, in degrees. -/
structure CamState where
  camera_rotation_x : ℚ
  camera_rotation_y : ℚ
  camera_distance : ℚ
deriving DecidableEq, Repr

/-- The camera values set in `Rocket3DWidget.__init__`. -/
def camInit : CamState :=
  { camera_rotation_x := 20, camera_rotation_y := 0, camera_distance := 5 }

/-- A user input event reaching the camera: a pointer move (with the mouse
button state and the pixel deltas against the last position) or a wheel
scroll with its angle delta. -/
inductive CamEvent where
  | drag (buttons : Bool) (dx dy : ℚ)
  | scroll (delta : ℚ)
deriving DecidableEq, Repr

/-- `mouseMoveEvent` / `wheelEvent`: a drag with a button held adds half the
pixel deltas to the orbit angles and clamps the vertical angle to
[-89, 89]; a scroll subtracts `delta * 0.01` from the distance and clamps it
to [2, 15]. -/
def camStep (s : CamState) (e : CamEvent) : CamState :=
  match e with
  | .drag buttons dx dy =>
    if buttons then
      { camera_rotation_y := s.camera_rotation_y + dx * (1 / 2)
        camera_rotation_x :=
          max (-89) (min 89 (s.camera_rotation_x + dy * (1 / 2)))
        camera_distance := s.camera_distance }
    else s
  | .scroll delta =>
    { s with
      camera_distance :=
        max 2 (min 15 (s.camera_distance - delta * (1 / 100))) }

/-- The camera state after a sequence of pointer events from the initial
state. -/
def camRun (evs : List CamEvent) : CamState := evs.foldl camStep camInit

/-- Degree-argument cosine, as used by `glRotatef`. -/
noncomputable def cosd (a : ℝ) : ℝ := Real.cos (a * Real.pi / 180)

/-- Degree-argument sine, as used by `glRotatef`. -/
noncomputable def sind (a : ℝ) : ℝ := Real.sin (a * Real.pi / 180)

/-- Rotation by `a` degrees about the vertical Y axis
(`glRotatef(a, 0, 1, 0)`). -/
noncomputable def rotY (a : ℝ) : Matrix (Fin 3) (Fin 3) ℝ :=
  !![cosd a, 0, sind a; 0, 1, 0; -sind a, 0, cosd a]

/-- Rotation by `a` degrees about the lateral X axis
(`glRotatef(a, 1, 0, 0)`). -/
noncomputable def rotX (a : ℝ) : Matrix (Fin 3) (Fin 3) ℝ :=
  !![1, 0, 0; 0, cosd a, -sind a; 0, sind a, cosd a]

/-- Rotation by `a` degrees about the longitudinal Z axis
(`glRotatef(a, 0, 0, 1)`). -/
noncomputable def rotZ (a : ℝ) : Matrix (Fin 3) (Fin 3) ℝ :=
  !![cosd a, -sind a, 0; sind a, cosd a, 0; 0, 0, 1]

/-- `glRotatef` post-multiplies the current modelview matrix. -/
noncomputable def glRotY (a : ℝ) (m : Matrix (Fin 3) (Fin 3) ℝ) :
    Matrix (Fin 3) (Fin 3) ℝ := m * rotY a

/-- `glRotatef` about X, post-multiplying the current matrix. -/
noncomputable def glRotX (a : ℝ) (m : Matrix (Fin 3) (Fin 3) ℝ) :
    Matrix (Fin 3) (Fin 3) ℝ := m * rotX a

/-- `glRotatef` about Z, post-multiplying the current matrix. -/
noncomputable def glRotZ (a : ℝ) (m : Matrix (Fin 3) (Fin 3) ℝ) :
    Matrix (Fin 3) (Fin 3) ℝ := m * rotZ a

/-- The rotation block of `Rocket3DWidget.paintGL`, lines 89-92: starting
from the current matrix `m`, issue `glRotatef(yaw, 0, 1, 0)`, then
`glRotatef(pitch, 1, 0, 0)`, then `glRotatef(roll, 0, 0, 1)`. -/
noncomputable def paintRotations (roll pitch yaw : ℝ)
    (m : Matrix (Fin 3) (Fin 3) ℝ) : Matrix (Fin 3) (Fin 3) ℝ :=
  glRotZ roll (glRotX pitch (glRotY yaw m))

/-- The vehicle-to-scene rotation `paintGL` leaves on the stack (relative to
the matrix in force before the rotation block). -/
noncomputable def modelMatrix (roll pitch yaw : ℝ) :
    Matrix (Fin 3) (Fin 3) ℝ :=
  paintRotations roll pitch yaw 1

/-- Logging a whole list of (wall-clock timestamp, record) pairs. -/
def run_log (l : DataLogger) (ps : List (String × Record)) : DataLogger :=
  ps.foldl (fun st p => log_data p.1 st p.2) l

/-- The record a logged entry becomes once `log_data` stamps it. -/
def stampRec (p : String × Record) : Record :=
  { p.2 with timestamp := some p.1 }

/-- A record carrying only a `roll` key. -/
def dOnlyRoll : Record := { roll := some 1 }

/-- The record parsed from the line with a lone status key. -/
def dStatus : Record := { status := some "ready" }

/-- A full telemetry record. -/
def dTelemetry : Record :=
  { roll := some 1, pitch := some 2, yaw := some 3, altitude := some 100,
    time := some 0 }

/-- A second full telemetry record, distinguishable from the first. -/
def dTelemetry2 : Record :=
  { roll := some 5, pitch := some 6, yaw := some 7, altitude := some 200,
    time := some 1 }

/-- One hundred identical accepted samples. -/
def ps100 : List (String × Record) := List.replicate 100 ("t0", dTelemetry)

/-- Stop the running session, start a new one on the same logger, and log
`ps` into it: the state the second session reaches before its stop. -/
def secondSession (l : DataLogger) (ps : List (String × Record)) :
    DataLogger :=
  run_log (start_logging (stop_logging l)) ps

/-!  ## Theorems  -/

/-- C1 (counterexample): at the concrete active logger `demoActive`, the
specification's `start()` demands an AlreadyActive failure, but the source's
`start_logging` returns normally with the state unchanged — it raises no
error at all. -/
theorem c1_start_active_no_error :
    demoActive.is_logging = true
      ∧ start_logging_spec demoActive = Except.error StartError.alreadyActive
      ∧ start_logging demoActive = demoActive :=
  ⟨rfl, rfl, rfl⟩

/-- C1 (amended): calling `start_logging` while a session is already active
is a silent no-op that returns the state unchanged (no error is raised);
only when no session is open does it open (truncate) the row sink, write the
header row, and mark the session active. -/
theorem c1_start_logging_cases (l : DataLogger) :
    (l.is_logging = true → start_logging l = l)
      ∧ (l.is_logging = false → start_logging l =
          { l with
            csv_open_events := l.csv_open_events ++ [l.csv_filename]
            csv_rows := [csvHeader]
            is_logging := true }) := by
  constructor <;> intro h <;> simp [start_logging, h]

/-- C1 (witness): the amended statement applied to the concrete active
logger. -/
theorem c1_start_logging_cases_witness :
    demoActive.is_logging = true ∧ start_logging demoActive = demoActive :=
  ⟨rfl, (c1_start_logging_cases demoActive).1 rfl⟩

/-- C4: for every input line whose trimmed text is not enclosed in braces,
or which parses to nothing (`json.loads` raised), `read_data` returns
nothing; the embedding is a total `Option`-valued function, so no exception
escapes to the caller. -/
theorem c4_read_data_drops (parse : List Char → Option Record)
    (is_connected : Bool) (line : List Char) (elapsed : ℚ)
    (h : bracedLine (pyStrip line) = false ∨ parse (pyStrip line) = none) :
    read_data parse is_connected (some line) elapsed = none := by
  cases is_connected with
  | false => simp [read_data]
  | true => rcases h with h | h <;> simp [read_data, h]

/-- C4 (witness): the line `hello` fails the brace test and is dropped, and
a braced line whose parse fails is dropped. -/
theorem c4_read_data_drops_witness :
    bracedLine (pyStrip ['h', 'e', 'l', 'l', 'o']) = false
      ∧ read_data (fun _ => none) true (some ['h', 'e', 'l', 'l', 'o']) 0
          = none
      ∧ read_data (fun _ => none) true (some ['\x7b', 'a', '\x7d']) 0
          = none :=
  ⟨by decide,
    c4_read_data_drops _ true ['h', 'e', 'l', 'l', 'o'] 0
      (Or.inl (by decide)),
    c4_read_data_drops _ true ['\x7b', 'a', '\x7d'] 0 (Or.inr rfl)⟩

/-- C7: stopping an active session whose buffer is empty still writes a
document with `total_samples = 0` and an empty `data` list (and null
start/end times) to the JSON sink, and `get_stats` on an empty buffer
returns `none` rather than failing. -/
theorem c7_stop_empty (l : DataLogger) (h1 : l.is_logging = true)
    (h2 : l.json_data = []) :
    stop_logging l =
      { l with
        json_docs := l.json_docs ++
          [(l.json_filename,
            { start_time := none, end_time := none, total_samples := 0,
              data := [] })]
        is_logging := false }
      ∧ get_stats l = none := by
  constructor
  · simp [stop_logging, h1, h2, mkDoc]
  · simp [get_stats, h2]

/-- C7 (witness): the statement applied to the concrete active logger with
an empty buffer. -/
theorem c7_stop_empty_witness :
    demoActive.is_logging = true ∧ demoActive.json_data = []
      ∧ (stop_logging demoActive =
          { demoActive with
            json_docs := demoActive.json_docs ++
              [(demoActive.json_filename,
                { start_time := none, end_time := none, total_samples := 0,
                  data := [] })]
            is_logging := false }
        ∧ get_stats demoActive = none) :=
  ⟨rfl, rfl, c7_stop_empty demoActive rfl rfl⟩

/-- C5: a successfully parsed record is treated as telemetry (appended to
the window and, when a session is active, to the log) if and only if it
carries all four of roll, pitch, yaw, altitude; a record with a status key
but not all four telemetry keys takes the status branch and leaves the
window and logger untouched. -/
theorem c5_record_classification (d : Record) (ts : String) (s : GuiState) :
    (update_data_branch d = .telemetry ↔ hasAllFour d = true)
      ∧ (spacex_branch d = .telemetry ↔ hasAllFour d = true)
      ∧ (hasAllFour d = true →
          spacex_update ts s (some d) =
            { logger :=
                if s.logger.is_logging then log_data ts s.logger d
                else s.logger
              buffers := push_buffers s.buffers d })
      ∧ (d.status.isSome = true → hasAllFour d = false →
          update_data_branch d = .statusMsg
            ∧ spacex_update ts s (some d) = s) := by
  refine ⟨?_, ?_, ?_, ?_⟩
  · cases h4 : hasAllFour d
    · simp only [update_data_branch, h4, Bool.false_eq_true, if_false]
      constructor
      · intro h
        exfalso
        revert h
        split
        · simp
        · split <;> simp
      · simp
    · simp [update_data_branch, h4]
  · cases h4 : hasAllFour d <;> simp [spacex_branch, h4]
  · intro h4
    simp [spacex_update, h4]
  · intro hs h4
    exact ⟨by simp [update_data_branch, h4, hs], by simp [spacex_update, h4]⟩

/-- C5 (witness): the record parsed from the status-only line, applied to
the concrete GUI state. -/
theorem c5_record_classification_witness :
    dStatus.status.isSome = true ∧ hasAllFour dStatus = false
      ∧ (update_data_branch dStatus = .statusMsg
          ∧ spacex_update "t" demoGui (some dStatus) = demoGui) :=
  ⟨rfl, rfl, (c5_record_classification dStatus "t" demoGui).2.2.2 rfl rfl⟩

/-- C6 (counterexample): the record carrying only a `roll` key satisfies the
spec's at-least-one-of-four wire shape for telemetry, yet `update_data`
drops it without touching the window or the logger — the code requires all
four keys. -/
theorem c6_at_least_one_refuted :
    wire_is_telemetry dOnlyRoll = true
      ∧ hasAllFour dOnlyRoll = false
      ∧ spacex_branch dOnlyRoll = Handling.dropped
      ∧ spacex_update "t" demoGui (some dOnlyRoll) = demoGui :=
  ⟨rfl, rfl, rfl, rfl⟩

/-- C6 (amended): a parsed record is classified as telemetry if and only if
it contains all four of the keys roll, pitch, yaw, altitude; a record
lacking any of the four is dropped by this window and leaves the state
unchanged. -/
theorem c6_all_four_required (d : Record) (ts : String) (s : GuiState) :
    (spacex_branch d = .telemetry ↔ hasAllFour d = true)
      ∧ (hasAllFour d = false → spacex_update ts s (some d) = s) := by
  constructor
  · cases h4 : hasAllFour d <;> simp [spacex_branch, h4]
  · intro h4
    simp [spacex_update, h4]

/-- C6 (witness): the amended statement applied to the roll-only record and
the concrete GUI state. -/
theorem c6_all_four_required_witness :
    hasAllFour dOnlyRoll = false
      ∧ spacex_update "t" demoGui (some dOnlyRoll) = demoGui :=
  ⟨rfl, (c6_all_four_required dOnlyRoll "t" demoGui).2 rfl⟩

theorem keepLast_length_le (n : ℕ) (l : List ℚ) :
    (keepLast n l).length ≤ n := by
  simp only [keepLast, List.length_drop]
  omega

theorem keepLast_of_le {n : ℕ} {l : List ℚ} (h : l.length ≤ n) :
    keepLast n l = l := by
  unfold keepLast
  rw [Nat.sub_eq_zero_of_le h, List.drop_zero]

theorem keepLast_append_of_ge (n : ℕ) (l : List ℚ) (x : ℚ)
    (h : n ≤ l.length) :
    keepLast n (keepLast n l ++ [x]) = keepLast n (l ++ [x]) := by
  rcases Nat.eq_zero_or_pos n with hn | hn
  · subst hn
    simp [keepLast, List.drop_length]
  · unfold keepLast
    have h1 : (List.drop (l.length - n) l).length = n := by
      rw [List.length_drop]; omega
    simp only [List.length_append, List.length_singleton, h1]
    rw [List.drop_append_of_le_length
      (show n + 1 - n ≤ (List.drop (l.length - n) l).length by
        rw [h1]; omega)]
    rw [List.drop_append_of_le_length
      (show l.length + 1 - n ≤ l.length by omega)]
    rw [List.drop_drop]
    have he : l.length - n + (n + 1 - n) = l.length + 1 - n := by omega
    rw [he]

theorem keepLast_append_of_lt (n : ℕ) (l : List ℚ) (x : ℚ)
    (h : l.length < n) :
    keepLast n l ++ [x] = keepLast n (l ++ [x]) := by
  rw [keepLast_of_le (Nat.le_of_lt h),
    keepLast_of_le (by simp only [List.length_append, List.length_cons,
      List.length_nil]; omega)]

theorem run_pushes_eq (n : ℕ) (ds : List Record) :
    run_pushes n ds =
      { time_data := keepLast n (ds.map fun d => d.time.getD 0)
        roll_data := keepLast n (ds.map fun d => d.roll.getD 0)
        pitch_data := keepLast n (ds.map fun d => d.pitch.getD 0)
        yaw_data := keepLast n (ds.map fun d => d.yaw.getD 0)
        altitude_data := keepLast n (ds.map fun d => d.altitude.getD 0)
        velocity_data := keepLast n (ds.map fun d => d.velocity.getD 0) } := by
  induction ds using List.reverseRecOn with
  | nil => simp [run_pushes, emptyBuffers, keepLast]
  | append_singleton ds d ih =>
    have hstep : run_pushes n (ds ++ [d]) =
        push_buffersN n (run_pushes n ds) d := by
      unfold run_pushes
      exact List.foldl_concat _ _ _ _
    rw [hstep, ih]
    have hmap : ∀ f : Record → ℚ,
        (ds ++ [d]).map f = ds.map f ++ [f d] := by
      intro f; simp
    by_cases hL : n ≤ ds.length
    · have hcond :
          (keepLast n (ds.map fun d => d.time.getD 0) ++
            [d.time.getD 0]).length > n := by
        simp only [List.length_append, List.length_singleton, keepLast,
          List.length_drop, List.length_map]
        omega
      have htrim : ∀ f : Record → ℚ,
          keepLast n (keepLast n (ds.map f) ++ [f d]) =
            keepLast n ((ds ++ [d]).map f) := by
        intro f
        rw [hmap f]
        exact keepLast_append_of_ge n _ _ (by simpa using hL)
      simp only [push_buffersN, hcond, if_true, gt_iff_lt]
      simp only [PlotBuffers.mk.injEq]
      exact ⟨htrim _, htrim _, htrim _, htrim _, htrim _, htrim _⟩
    · have hlt : ds.length < n := by omega
      have hcond :
          ¬ (keepLast n (ds.map fun d => d.time.getD 0) ++
            [d.time.getD 0]).length > n := by
        simp only [List.length_append, List.length_singleton, keepLast,
          List.length_drop, List.length_map]
        omega
      have hkeep : ∀ f : Record → ℚ,
          keepLast n (ds.map f) ++ [f d] =
            keepLast n ((ds ++ [d]).map f) := by
        intro f
        rw [hmap f]
        exact keepLast_append_of_lt n _ _ (by simpa using hlt)
      simp only [push_buffersN, gt_iff_lt]
      rw [if_neg (by exact hcond)]
      simp only [PlotBuffers.mk.injEq]
      exact ⟨hkeep _, hkeep _, hkeep _, hkeep _, hkeep _, hkeep _⟩

/-- C2: for every capacity `n` (the implementation fixes `max_points = 500`)
and every sequence of pushed samples, every per-field list of the window is
the last-`n` suffix of the corresponding pushed-field sequence — so the
window length never exceeds `n`, all six per-field lists stay index-aligned
with equal lengths, and once more than `n` samples have been pushed the
oldest remaining entry is the `(pushCount - n)`-th pushed one (0-indexed). -/
theorem c2_window_invariant (n : ℕ) (ds : List Record) :
    push_buffers = push_buffersN 500
      ∧ (run_pushes n ds).time_data.length ≤ n
      ∧ ((run_pushes n ds).roll_data.length
            = (run_pushes n ds).time_data.length
        ∧ (run_pushes n ds).pitch_data.length
            = (run_pushes n ds).time_data.length
        ∧ (run_pushes n ds).yaw_data.length
            = (run_pushes n ds).time_data.length
        ∧ (run_pushes n ds).altitude_data.length
            = (run_pushes n ds).time_data.length
        ∧ (run_pushes n ds).velocity_data.length
            = (run_pushes n ds).time_data.length)
      ∧ run_pushes n ds =
          { time_data := keepLast n (ds.map fun d => d.time.getD 0)
            roll_data := keepLast n (ds.map fun d => d.roll.getD 0)
            pitch_data := keepLast n (ds.map fun d => d.pitch.getD 0)
            yaw_data := keepLast n (ds.map fun d => d.yaw.getD 0)
            altitude_data := keepLast n (ds.map fun d => d.altitude.getD 0)
            velocity_data := keepLast n (ds.map fun d => d.velocity.getD 0) }
      ∧ (ds.length > n →
          (run_pushes n ds).time_data.head? =
            (ds.map fun d => d.time.getD 0)[ds.length - n]?) := by
  have hc := run_pushes_eq n ds
  refine ⟨rfl, ?_, ?_, hc, ?_⟩
  · rw [hc]
    exact keepLast_length_le _ _
  · rw [hc]
    refine ⟨?_, ?_, ?_, ?_, ?_⟩ <;>
      simp [keepLast, List.length_drop, List.length_map]
  · intro _
    rw [hc]
    show (keepLast n (ds.map fun d => d.time.getD 0)).head? = _
    rw [keepLast, List.head?_drop]
    congr 1
    simp [List.length_map]

/-- C2 (witness): capacity 1 with two pushed samples — the window holds one
entry, the second pushed sample's time. -/
theorem c2_window_invariant_witness :
    [dTelemetry, dTelemetry2].length > 1
      ∧ (run_pushes 1 [dTelemetry, dTelemetry2]).time_data.head? =
          ([dTelemetry, dTelemetry2].map
            fun d => d.time.getD 0)[[dTelemetry, dTelemetry2].length - 1]? :=
  ⟨by decide,
    (c2_window_invariant 1 [dTelemetry, dTelemetry2]).2.2.2.2 (by decide)⟩

theorem run_log_state (ps : List (String × Record)) (l : DataLogger)
    (h : l.is_logging = true) :
    (run_log l ps).is_logging = true
      ∧ (run_log l ps).json_data = l.json_data ++ ps.map stampRec
      ∧ (run_log l ps).csv_filename = l.csv_filename
      ∧ (run_log l ps).json_filename = l.json_filename
      ∧ (run_log l ps).csv_open_events = l.csv_open_events
      ∧ (run_log l ps).json_docs = l.json_docs := by
  induction ps generalizing l with
  | nil => simp [run_log, h]
  | cons p ps ih =>
    have hstep : run_log l (p :: ps) = run_log (log_data p.1 l p.2) ps := rfl
    have h2 : (log_data p.1 l p.2).is_logging = true := by
      simp [log_data, h]
    obtain ⟨a, b, c, d4, e, f⟩ := ih (log_data p.1 l p.2) h2
    rw [hstep]
    refine ⟨a, ?_, ?_, ?_, ?_, ?_⟩
    · rw [b]
      simp [log_data, h, stampRec]
    · rw [c]; simp [log_data, h]
    · rw [d4]; simp [log_data, h]
    · rw [e]; simp [log_data, h]
    · rw [f]; simp [log_data, h]

theorem run_log_flush (ps : List (String × Record)) (l : DataLogger)
    (h : l.is_logging = true) :
    (run_log l ps).flush_count =
      l.flush_count +
        ((l.json_data.length + ps.length) / 100
          - l.json_data.length / 100) := by
  induction ps generalizing l with
  | nil => simp [run_log]
  | cons p ps ih =>
    have hstep : run_log l (p :: ps) = run_log (log_data p.1 l p.2) ps := rfl
    have h2 : (log_data p.1 l p.2).is_logging = true := by
      simp [log_data, h]
    rw [hstep, ih _ h2]
    have hjson : (log_data p.1 l p.2).json_data.length
        = l.json_data.length + 1 := by
      simp [log_data, h]
    have hfc : (log_data p.1 l p.2).flush_count =
        if (l.json_data.length + 1) % 100 = 0 then l.flush_count + 1
        else l.flush_count := by
      simp [log_data, h]
    rw [hjson, hfc]
    simp only [List.length_cons]
    by_cases hc : (l.json_data.length + 1) % 100 = 0
    · rw [if_pos hc]; omega
    · rw [if_neg hc]; omega

/-- C3: starting from an active session with an empty buffer, the
`flush_count` after `n` accepted samples is `n / 100` more than before —
and the next accepted sample triggers a flush exactly when its ordinal
`n + 1` is a multiple of 100 (so every 100th accepted sample flushes and no
other does); for 250 samples that is exactly two flushes. -/
theorem c3_flush_schedule (l : DataLogger) (ps : List (String × Record))
    (h1 : l.is_logging = true) (h2 : l.json_data = []) :
    (run_log l ps).flush_count = l.flush_count + ps.length / 100
      ∧ (∀ ts d, (log_data ts (run_log l ps) d).flush_count =
          (run_log l ps).flush_count +
            if (ps.length + 1) % 100 = 0 then 1 else 0)
      ∧ (ps.length = 250 →
          (run_log l ps).flush_count = l.flush_count + 2) := by
  have hrun := run_log_flush ps l h1
  rw [h2] at hrun
  simp only [List.length_nil, Nat.zero_add, Nat.zero_div,
    Nat.sub_zero] at hrun
  have hst := run_log_state ps l h1
  have hjson : (run_log l ps).json_data.length = ps.length := by
    rw [hst.2.1, h2]; simp
  refine ⟨hrun, ?_, ?_⟩
  · intro ts d
    have hone : (log_data ts (run_log l ps) d).flush_count =
        if (ps.length + 1) % 100 = 0 then (run_log l ps).flush_count + 1
        else (run_log l ps).flush_count := by
      simp [log_data, hst.1, hjson]
    rw [hone]
    by_cases hcc : (ps.length + 1) % 100 = 0 <;> simp [hcc]
  · intro h250
    rw [hrun, h250]

/-- C3 (witness): 100 accepted samples from a fresh active session produce
exactly one periodic flush. -/
theorem c3_flush_schedule_witness :
    demoActive.is_logging = true ∧ demoActive.json_data = []
      ∧ (run_log demoActive ps100).flush_count =
          demoActive.flush_count + ps100.length / 100
      ∧ ps100.length / 100 = 1 :=
  ⟨rfl, rfl, (c3_flush_schedule demoActive ps100 rfl rfl).1, by decide⟩

/-- C10: `stop_logging` never empties the in-memory buffer and the two sink
filenames are fixed at construction, so stopping a session and starting a
new one on the same logger truncates and rewrites the same files, and the
second session's document total, its stats, and its periodic-flush schedule
all count the earlier session's samples too. -/
theorem c10_session_carryover (l : DataLogger) (ps : List (String × Record))
    (h : l.is_logging = true) :
    (stop_logging l).json_data = l.json_data
      ∧ (start_logging (stop_logging l)).csv_open_events =
          l.csv_open_events ++ [l.csv_filename]
      ∧ (start_logging (stop_logging l)).csv_filename = l.csv_filename
      ∧ (start_logging (stop_logging l)).json_filename = l.json_filename
      ∧ (start_logging (stop_logging l)).json_data = l.json_data
      ∧ (secondSession l ps).json_data = l.json_data ++ ps.map stampRec
      ∧ (stop_logging (secondSession l ps)).json_docs =
          (secondSession l ps).json_docs ++
            [(l.json_filename, mkDoc (l.json_data ++ ps.map stampRec))]
      ∧ (mkDoc (l.json_data ++ ps.map stampRec)).total_samples =
          l.json_data.length + ps.length
      ∧ (∀ st, get_stats (secondSession l ps) = some st →
          st.samples = l.json_data.length + ps.length)
      ∧ (∀ ts d, (log_data ts (secondSession l ps) d).flush_count =
          (secondSession l ps).flush_count +
            if (l.json_data.length + ps.length + 1) % 100 = 0 then 1
            else 0) := by
  have hs1 : stop_logging l =
      { l with
        json_docs := l.json_docs ++ [(l.json_filename, mkDoc l.json_data)]
        is_logging := false } := by
    simp [stop_logging, h]
  have hs1f : (stop_logging l).is_logging = false := by rw [hs1]
  have hs2 : start_logging (stop_logging l) =
      { stop_logging l with
        csv_open_events :=
          (stop_logging l).csv_open_events ++ [(stop_logging l).csv_filename]
        csv_rows := [csvHeader]
        is_logging := true } := by
    simp [start_logging, hs1f]
  have hs2t : (start_logging (stop_logging l)).is_logging = true := by
    rw [hs2]
  obtain ⟨ra, rb, rc, rd4, re, rf⟩ :=
    run_log_state ps (start_logging (stop_logging l)) hs2t
  have hfn1 : (start_logging (stop_logging l)).csv_filename =
      l.csv_filename := by rw [hs2, hs1]
  have hfn2 : (start_logging (stop_logging l)).json_filename =
      l.json_filename := by rw [hs2, hs1]
  have hjd2 : (start_logging (stop_logging l)).json_data = l.json_data := by
    rw [hs2, hs1]
  have hra : (secondSession l ps).is_logging = true := ra
  have hrunjd : (secondSession l ps).json_data =
      l.json_data ++ ps.map stampRec := by
    show (run_log (start_logging (stop_logging l)) ps).json_data = _
    rw [rb, hjd2]
  have hrunlen : (secondSession l ps).json_data.length =
      l.json_data.length + ps.length := by
    rw [hrunjd]; simp
  refine ⟨by rw [hs1], ?_, hfn1, hfn2, hjd2, hrunjd, ?_, ?_, ?_, ?_⟩
  · rw [hs2, hs1]
  · have hfn3 : (secondSession l ps).json_filename = l.json_filename := by
      show (run_log (start_logging (stop_logging l)) ps).json_filename = _
      rw [rd4, hfn2]
    rw [stop_logging, if_pos hra, hfn3, hrunjd]
  · simp [mkDoc]
  · intro st hst
    by_cases hemp : (secondSession l ps).json_data.isEmpty
    · rw [get_stats, if_pos hemp] at hst
      exact absurd hst (by simp)
    · rw [get_stats, if_neg hemp] at hst
      have hst2 := (Option.some.injEq _ _).mp hst
      rw [← hst2]
      exact hrunlen
  · intro ts d
    have hone : (log_data ts (secondSession l ps) d).flush_count =
        if (l.json_data.length + ps.length + 1) % 100 = 0 then
          (secondSession l ps).flush_count + 1
        else (secondSession l ps).flush_count := by
      simp [log_data, hra, hrunlen]
    rw [hone]
    by_cases hcc : (l.json_data.length + ps.length + 1) % 100 = 0 <;>
      simp [hcc]

/-- C10 (witness): the carryover statement applied to the concrete active
logger and one logged sample in the second session. -/
theorem c10_session_carryover_witness :
    demoActive.is_logging = true
      ∧ (start_logging (stop_logging demoActive)).csv_open_events =
          demoActive.csv_open_events ++ [demoActive.csv_filename]
      ∧ (mkDoc (demoActive.json_data ++
          [("t1", dTelemetry)].map stampRec)).total_samples =
          demoActive.json_data.length + [("t1", dTelemetry)].length :=
  ⟨rfl,
    (c10_session_carryover demoActive [("t1", dTelemetry)] rfl).2.1,
    (c10_session_carryover demoActive
      [("t1", dTelemetry)] rfl).2.2.2.2.2.2.2.1⟩

/-- C9: after every sequence of pointer-drag and scroll events from the
initial camera state, the vertical orbit angle stays within [-89, 89]
degrees and the orbit distance stays within [2, 15] scene units. -/
theorem c9_camera_clamped (evs : List CamEvent) :
    -89 ≤ (camRun evs).camera_rotation_x
      ∧ (camRun evs).camera_rotation_x ≤ 89
      ∧ 2 ≤ (camRun evs).camera_distance
      ∧ (camRun evs).camera_distance ≤ 15 := by
  suffices hop : ∀ (s : CamState) (e : CamEvent),
      (-89 ≤ s.camera_rotation_x ∧ s.camera_rotation_x ≤ 89
        ∧ 2 ≤ s.camera_distance ∧ s.camera_distance ≤ 15) →
      (-89 ≤ (camStep s e).camera_rotation_x
        ∧ (camStep s e).camera_rotation_x ≤ 89
        ∧ 2 ≤ (camStep s e).camera_distance
        ∧ (camStep s e).camera_distance ≤ 15) by
    have hfold : ∀ (es : List CamEvent) (s : CamState),
        (-89 ≤ s.camera_rotation_x ∧ s.camera_rotation_x ≤ 89
          ∧ 2 ≤ s.camera_distance ∧ s.camera_distance ≤ 15) →
        (-89 ≤ (es.foldl camStep s).camera_rotation_x
          ∧ (es.foldl camStep s).camera_rotation_x ≤ 89
          ∧ 2 ≤ (es.foldl camStep s).camera_distance
          ∧ (es.foldl camStep s).camera_distance ≤ 15) := by
      intro es
      induction es with
      | nil => intro s hs; exact hs
      | cons e es ih => intro s hs; exact ih _ (hop s e hs)
    exact hfold evs camInit (by norm_num [camInit])
  intro s e hs
  obtain ⟨h1, h2, h3, h4⟩ := hs
  cases e with
  | drag b dx dy =>
    cases b with
    | false => exact ⟨h1, h2, h3, h4⟩
    | true =>
      refine ⟨le_max_left _ _, ?_, h3, h4⟩
      exact max_le (by norm_num) (min_le_left _ _)
  | scroll delta =>
    refine ⟨h1, h2, le_max_left _ _, ?_⟩
    exact max_le (by norm_num) (min_le_left _ _)

theorem cosd_zero : cosd 0 = 1 := by simp [cosd]

theorem sind_zero : sind 0 = 0 := by simp [sind]

theorem cosd_ninety : cosd 90 = 0 := by
  unfold cosd
  rw [show (90 : ℝ) * Real.pi / 180 = Real.pi / 2 by ring]
  exact Real.cos_pi_div_two

theorem sind_ninety : sind 90 = 1 := by
  unfold sind
  rw [show (90 : ℝ) * Real.pi / 180 = Real.pi / 2 by ring]
  exact Real.sin_pi_div_two

theorem rotX_zero : rotX 0 = 1 := by
  rw [rotX, cosd_zero, sind_zero, Matrix.one_fin_three]
  norm_num

theorem rotY_zero : rotY 0 = 1 := by
  rw [rotY, cosd_zero, sind_zero, Matrix.one_fin_three]
  norm_num

theorem rotZ_zero : rotZ 0 = 1 := by
  rw [rotZ, cosd_zero, sind_zero, Matrix.one_fin_three]
  norm_num

/-- C8: `paintGL` composes the attitude rotation in exactly the committed
order yaw (about vertical Y), then pitch (about lateral X), then roll
(about longitudinal Z) — the modelview transform left on the stack is
`rotY yaw * rotX pitch * rotZ roll` — and this order is observable: a pure
90-degree yaw and a pure 90-degree roll send the vehicle's x-axis to
different vectors. -/
theorem c8_rotation_order :
    (∀ roll pitch yaw : ℝ,
        modelMatrix roll pitch yaw = rotY yaw * rotX pitch * rotZ roll)
      ∧ (modelMatrix 0 0 90).mulVec ![1, 0, 0] = ![0, 0, -1]
      ∧ (modelMatrix 90 0 0).mulVec ![1, 0, 0] = ![0, 1, 0]
      ∧ (modelMatrix 0 0 90).mulVec ![1, 0, 0] ≠
          (modelMatrix 90 0 0).mulVec ![1, 0, 0] := by
  have horder : ∀ roll pitch yaw : ℝ,
      modelMatrix roll pitch yaw = rotY yaw * rotX pitch * rotZ roll := by
    intro roll pitch yaw
    simp [modelMatrix, paintRotations, glRotZ, glRotX, glRotY, one_mul]
  have hyaw : (modelMatrix 0 0 90).mulVec ![1, 0, 0] = ![0, 0, -1] := by
    rw [horder, rotX_zero, rotZ_zero, mul_one, mul_one, rotY,
      cosd_ninety, sind_ninety]
    funext i
    fin_cases i <;>
      simp [Matrix.mulVec, Matrix.dotProduct, Fin.sum_univ_three]
  have hroll : (modelMatrix 90 0 0).mulVec ![1, 0, 0] = ![0, 1, 0] := by
    rw [horder, rotY_zero, rotX_zero, one_mul, one_mul, rotZ,
      cosd_ninety, sind_ninety]
    funext i
    fin_cases i <;>
      simp [Matrix.mulVec, Matrix.dotProduct, Fin.sum_univ_three]
  refine ⟨horder, hyaw, hroll, ?_⟩
  rw [hyaw, hroll]
  intro heq
  have h1 := congrFun heq 1
  simp at h1

end FlightController
